import Mathlib

/-
Shallow embedding of src/python/fb_ads_library_api.py.

The module embeds:
  * get_ad_archive_id           (lines 16-20): regex search for "/\?id=([0-9]+)"
    over the value of data["ad_snapshot_url"], returning group 1; a failed
    search means the Python code raises (AttributeError on None.group, the
    ExtractionError of the spec), modelled by returning none.
  * FbAdsLibraryTraversal._get_ad_archives_from_url (lines 81-149): the
    cursor-following generator loop with per-URL retry bookkeeping and the
    delivery-date window filter.  The HTTP fetch plus JSON decode of one
    iteration is modelled by consuming one element of an explicit list of
    already-decoded responses (the loop performs exactly one fetch per
    iteration, so the response list doubles as fuel); the generator is
    modelled by returning the full list of yielded batches together with the
    way the run ended (normal end, raised exception, or response stream
    exhausted while the cursor was still live).
  * FbAdsLibraryTraversal.generate_ad_archives_from_url (lines 151-156): the
    restart entry point.

Dates: datetime.strptime(s, "%Y-%m-%d").timestamp() is modelled as the number
of seconds at midnight of the parsed calendar date in a fixed reference time
zone whose epoch is 1970-01-01 (UTC), i.e. (days since 1970-01-01) * 86400 as
an Int; parsing follows CPython strptime for this format: four digit year,
one or two digit month in 1..12, one or two digit day valid for the month,
nothing else in the string.  A failed parse (Python ValueError) is none.
-/

set_option autoImplicit false

namespace FbAdsLibrary

/-- True when year y is a leap year of the proleptic Gregorian calendar. -/
def isLeapYear (y : Nat) : Bool :=
  y % 4 == 0 && (y % 100 != 0 || y % 400 == 0)

/-- Number of days of month m (1..12) of year y. -/
def daysInMonth (y m : Nat) : Nat :=
  if m = 2 then (if isLeapYear y then 29 else 28)
  else if m = 4 ∨ m = 6 ∨ m = 9 ∨ m = 11 then 30
  else 31

/-- Days of year y that lie before month m. -/
def daysBeforeMonth (y m : Nat) : Nat :=
  ((List.range (m - 1)).map (fun i => daysInMonth y (i + 1))).sum

/-- Rata die day number of the date y-m-d: day 1 is 0001-01-01. -/
def rataDie (y m d : Nat) : Nat :=
  let p := y - 1
  365 * p + p / 4 - p / 100 + p / 400 + daysBeforeMonth y m + d

/-- Rata die day number of 1970-01-01, the Unix epoch. -/
def unixEpochRataDie : Nat := 719163

/-- Numeric value of a digit string. -/
def digitsVal (cs : List Char) : Nat :=
  cs.foldl (fun a c => a * 10 + (c.toNat - 48)) 0

/-- True when every character is an ASCII digit. -/
def allDigits (cs : List Char) : Bool :=
  cs.all Char.isDigit

/-- Split a character list at every dash, keeping empty groups. -/
def splitDash : List Char → List (List Char)
  | [] => [[]]
  | c :: cs =>
    let r := splitDash cs
    if c = '-' then [] :: r
    else
      match r with
      | [] => [[c]]
      | g :: gs => (c :: g) :: gs

/-- Parse of a "%Y-%m-%d" string following CPython strptime plus the datetime
range checks: exactly four digits of year (at least 0001), one or two digits
of month in 1..12, one or two digits of day in 1..daysInMonth, nothing else.
none models the Python ValueError. -/
def parseYmd (s : String) : Option (Nat × Nat × Nat) :=
  match splitDash s.data with
  | [ys, ms, ds] =>
    if ys.length = 4 ∧ allDigits ys
        ∧ 1 ≤ ms.length ∧ ms.length ≤ 2 ∧ allDigits ms
        ∧ 1 ≤ ds.length ∧ ds.length ≤ 2 ∧ allDigits ds then
      let y := digitsVal ys
      let m := digitsVal ms
      let d := digitsVal ds
      if 1 ≤ y ∧ 1 ≤ m ∧ m ≤ 12 ∧ 1 ≤ d ∧ d ≤ daysInMonth y m then
        some (y, m, d)
      else none
    else none
  | _ => none

/-- Model of datetime.strptime(s, "%Y-%m-%d").timestamp(): seconds at
midnight of the parsed date, measured from 1970-01-01 in the fixed reference
time zone.  none models the ValueError of a failed parse. -/
def dateTimestamp (s : String) : Option Int :=
  match parseYmd s with
  | some (y, m, d) =>
    some (((rataDie y m d : Int) - (unixEpochRataDie : Int)) * 86400)
  | none => none

/-- One ad-archive record.  The source treats records as open mappings and
only ever reads the two fields below; a missing key is a none field. -/
structure Record where
  ad_delivery_start_time : Option String
  ad_snapshot_url : Option String
deriving DecidableEq

/-- The "paging" object of a decoded response.  next distinguishes the three
JSON shapes the source can meet at response_data["paging"]["next"]:
none models an absent "next" key (the subscript raises KeyError),
some none models "next": null (Python None, loop ends),
some (some u) models a next cursor URL u. -/
structure Paging where
  next : Option (Option String)
deriving DecidableEq

/-- One decoded response page (the value of json.loads(response.text)).
error holds the serialized error payload json.dumps(response_data["error"])
when the page carries an "error" key.  data is the record list under "data"
(present per the response contract of the spec, section 6).  paging is the
optional "paging" object. -/
structure Response where
  error : Option String
  data : List Record
  paging : Option Paging
deriving DecidableEq

/-- The per-run constants of _get_ad_archives_from_url: the two parsed
cutoffs and the retry limit.  startTimeCutoffBefore is none when
ad_delivery_date_max was empty (the Python variable holds ""). -/
structure LoopCfg where
  startTimeCutoffAfter : Int
  startTimeCutoffBefore : Option Int
  retryLimit : Nat
deriving DecidableEq

/-- The mutable loop state: current cursor URL (none = terminal), the URL
that last produced an API-level error, and its consecutive retry counter. -/
structure TState where
  nextPageUrl : Option String
  lastErrorUrl : Option String
  lastRetryCount : Nat
deriving DecidableEq

/-- The exceptions the loop body can raise. -/
inductive PyError where
  /-- The Exception of lines 101-105, carrying the formatted message. -/
  | permanentApi (msg : String)
  /-- KeyError on a missing mapping key. -/
  | keyError (key : String)
  /-- ValueError from strptime on an unparseable date string. -/
  | valueError
deriving DecidableEq

/-- How a run of the generator ended. -/
inductive Outcome where
  /-- The while loop exited: StopIteration, a normal end. -/
  | done
  /-- An exception was raised after the listed batches were yielded. -/
  | raised (e : PyError)
  /-- The modelled response stream ran out while the cursor was live. -/
  | starved
deriving DecidableEq

/-- A whole run: every batch the generator yielded, in order, and the way
the run ended. -/
structure RunResult where
  batches : List (List Record)
  outcome : Outcome
deriving DecidableEq

deriving instance DecidableEq for Except

/-- The message of the permanent error raised at lines 101-105:
"Error message: [<payload>], failed on URL: [<url>]". -/
def permanentApiMessage (payload url : String) : String :=
  "Error message: [" ++ payload ++ "], failed on URL: [" ++ url ++ "]"

/-- The filter predicate of lines 112-138 applied to one record: a record
lacking ad_delivery_start_time is dropped (the conjunction short-circuits);
otherwise its date is parsed (ValueError propagates) and compared against the
cutoffs.  The source picks one of two lambdas by the Python truthiness of
start_time_cutoff_before: the empty string "" (no maximum date) and the float
0.0 (a maximum date whose timestamp is zero) are both falsy, so both select
the lambda that ignores the upper cutoff; the record-independent branch is
folded into the per-record test here. -/
def keepRecord (cfg : LoopCfg) (r : Record) : Except PyError Bool :=
  match r.ad_delivery_start_time with
  | none => .ok false
  | some s =>
    match dateTimestamp s with
    | none => .error .valueError
    | some t =>
      match cfg.startTimeCutoffBefore with
      | some before =>
        if before = 0 then .ok (decide (t ≥ cfg.startTimeCutoffAfter))
        else .ok (decide (before ≥ t ∧ t ≥ cfg.startTimeCutoffAfter))
      | none => .ok (decide (t ≥ cfg.startTimeCutoffAfter))

/-- list(filter(lambda ..., response_data["data"])): keeps the records that
pass keepRecord, in input order; the first ValueError aborts the whole
list construction, as forcing the Python filter object does. -/
def filterAds (cfg : LoopCfg) : List Record → Except PyError (List Record)
  | [] => .ok []
  | r :: rs =>
    match keepRecord cfg r with
    | .error e => .error e
    | .ok true =>
      match filterAds cfg rs with
      | .error e => .error e
      | .ok f => .ok (r :: f)
    | .ok false => filterAds cfg rs

/-- The while loop of lines 94-149.  Each iteration consumes the next decoded
response from the stream; the structure mirrors the source line by line:
error branch with per-URL retry bookkeeping (lines 97-110), window filter
(lines 112-138), empty-filter break (lines 140-143), yield (line 144), and
cursor advance through response_data["paging"]["next"] (lines 146-149). -/
def runLoop (cfg : LoopCfg) : List Response → TState → RunResult
  | _, ⟨none, _, _⟩ => ⟨[], .done⟩
  | [], ⟨some _, _, _⟩ => ⟨[], .starved⟩
  | resp :: rest, ⟨some url, lastErrorUrl, lastRetryCount⟩ =>
    match resp.error with
    | some payload =>
      if lastErrorUrl = some url then
        if cfg.retryLimit ≤ lastRetryCount then
          ⟨[], .raised (.permanentApi (permanentApiMessage payload url))⟩
        else
          runLoop cfg rest ⟨some url, some url, lastRetryCount + 1⟩
      else
        runLoop cfg rest ⟨some url, some url, 0 + 1⟩
    | none =>
      match filterAds cfg resp.data with
      | .error e => ⟨[], .raised e⟩
      | .ok filtered =>
        if filtered = [] then ⟨[], .done⟩
        else
          match resp.paging with
          | none => ⟨[filtered], .done⟩
          | some pg =>
            match pg.next with
            | none => ⟨[filtered], .raised (.keyError "next")⟩
            | some none => ⟨[filtered], .done⟩
            | some (some nextUrl) =>
              let r := runLoop cfg rest ⟨some nextUrl, lastErrorUrl, lastRetryCount⟩
              ⟨filtered :: r.batches, r.outcome⟩

/-- _get_ad_archives_from_url (lines 81-93 set-up plus the loop): parses
ad_delivery_date_min, then ad_delivery_date_max when that string is non-empty
(Python string truthiness), and runs the loop from a fresh state whose cursor
is next_page_url.  A set-up ValueError raises before anything is yielded. -/
def getAdArchivesFromUrl (responses : List Response) (next_page_url : String)
    (ad_delivery_date_min : String) (retry_limit : Nat)
    (ad_delivery_date_max : String) : RunResult :=
  match dateTimestamp ad_delivery_date_min with
  | none => ⟨[], .raised .valueError⟩
  | some after =>
    if ad_delivery_date_max = "" then
      runLoop ⟨after, none, retry_limit⟩ responses ⟨some next_page_url, none, 0⟩
    else
      match dateTimestamp ad_delivery_date_max with
      | none => ⟨[], .raised .valueError⟩
      | some before =>
        runLoop ⟨after, some before, retry_limit⟩ responses
          ⟨some next_page_url, none, 0⟩

/-- generate_ad_archives_from_url (lines 151-156): the restart entry point;
it forwards the failure URL and the minimum date and leaves retry_limit and
ad_delivery_date_max at their defaults 3 and "". -/
def generateAdArchivesFromUrl (responses : List Response) (failure_url : String)
    (ad_delivery_date_min : String) : RunResult :=
  getAdArchivesFromUrl responses failure_url ad_delivery_date_min 3 ""

/-- Attempted regex match of "/\?id=([0-9]+)" anchored at the head of the
character list: the five literal characters, then a non-empty greedy digit
run as group 1. -/
def idMatchAt : List Char → Option String
  | '/' :: '?' :: 'i' :: 'd' :: '=' :: rest =>
    let ds := rest.takeWhile Char.isDigit
    if ds.isEmpty then none else some (String.mk ds)
  | _ => none

/-- re.search: the match attempt at the leftmost position that succeeds. -/
def searchIdPattern : List Char → Option String
  | [] => none
  | c :: cs =>
    match idMatchAt (c :: cs) with
    | some r => some r
    | none => searchIdPattern cs

/-- get_ad_archive_id (lines 16-20) applied to the value of the
ad_snapshot_url field: re.search(r"/\?id=([0-9]+)", url).group(1).  none
models the raise on a failed search (the ExtractionError of the spec). -/
def get_ad_archive_id (ad_snapshot_url : String) : Option String :=
  searchIdPattern ad_snapshot_url.data

/-- True when the list starts with "?id=" followed by an ASCII digit. -/
def idDigitsAt : List Char → Bool
  | '?' :: 'i' :: 'd' :: '=' :: c :: _ => c.isDigit
  | _ => false

/-- True when the string contains "?id=" followed by a digit somewhere. -/
def containsIdDigits : List Char → Bool
  | [] => false
  | c :: cs => idDigitsAt (c :: cs) || containsIdDigits cs

/-- True when the list starts with "/?id=" followed by an ASCII digit. -/
def slashIdDigitsAt : List Char → Bool
  | '/' :: '?' :: 'i' :: 'd' :: '=' :: c :: _ => c.isDigit
  | _ => false

/-- True when the string contains "/?id=" followed by a digit somewhere. -/
def containsSlashIdDigits : List Char → Bool
  | [] => false
  | c :: cs => slashIdDigitsAt (c :: cs) || containsSlashIdDigits cs

/-- The date-window test of the amended claim C3, on a record timestamp t:
with an upper cutoff of zero the upper bound is ignored (the source tests the
Python truthiness of the float), with any other upper cutoff both bounds are
inclusive, and with no upper cutoff only the lower bound applies. -/
def inWindowAmended (cfg : LoopCfg) (t : Int) : Bool :=
  match cfg.startTimeCutoffBefore with
  | some before =>
    if before = 0 then decide (t ≥ cfg.startTimeCutoffAfter)
    else decide (before ≥ t ∧ t ≥ cfg.startTimeCutoffAfter)
  | none => decide (t ≥ cfg.startTimeCutoffAfter)

/-- The only exception keepRecord can produce is the ValueError of a failed
date parse. -/
theorem keepRecord_error_valueError {cfg : LoopCfg} {r : Record} {e : PyError}
    (h : keepRecord cfg r = .error e) : e = .valueError := by
  cases hd : r.ad_delivery_start_time with
  | none => simp [keepRecord, hd] at h
  | some s =>
    cases ht : dateTimestamp s with
    | none =>
      simp [keepRecord, hd, ht] at h
      exact h.symm
    | some t =>
      cases hb : cfg.startTimeCutoffBefore with
      | none => simp [keepRecord, hd, ht, hb] at h
      | some b => by_cases h0 : b = 0 <;> simp [keepRecord, hd, ht, hb, h0] at h

/-- A record keepRecord accepts carries a delivery start date. -/
theorem keepRecord_true_date {cfg : LoopCfg} {r : Record}
    (h : keepRecord cfg r = .ok true) : r.ad_delivery_start_time ≠ none := by
  intro hd
  simp [keepRecord, hd] at h

/-- Membership in a successful filterAds output: exactly the input records
that keepRecord accepts. -/
theorem filterAds_mem {cfg : LoopCfg} : ∀ {l f : List Record},
    filterAds cfg l = .ok f →
    ∀ r : Record, r ∈ f ↔ (r ∈ l ∧ keepRecord cfg r = .ok true) := by
  intro l
  induction l with
  | nil =>
    intro f h r
    simp [filterAds] at h
    subst h
    simp
  | cons a as ih =>
    intro f h r
    cases hk : keepRecord cfg a with
    | error e => simp [filterAds, hk] at h
    | ok b =>
      cases b with
      | true =>
        cases hrec : filterAds cfg as with
        | error e => simp [filterAds, hk, hrec] at h
        | ok f' =>
          simp [filterAds, hk, hrec] at h
          subst h
          constructor
          · intro hrf
            rcases List.mem_cons.mp hrf with h1 | h2
            · subst h1
              exact ⟨List.mem_cons_self _ _, hk⟩
            · obtain ⟨hm, hkk⟩ := (ih hrec r).mp h2
              exact ⟨List.mem_cons_of_mem _ hm, hkk⟩
          · rintro ⟨hm, hkk⟩
            rcases List.mem_cons.mp hm with h1 | h2
            · subst h1
              exact List.mem_cons_self _ _
            · exact List.mem_cons_of_mem _ ((ih hrec r).mpr ⟨h2, hkk⟩)
      | false =>
        simp [filterAds, hk] at h
        rw [ih h r]
        constructor
        · rintro ⟨hm, hkk⟩
          exact ⟨List.mem_cons_of_mem _ hm, hkk⟩
        · rintro ⟨hm, hkk⟩
          rcases List.mem_cons.mp hm with h1 | h2
          · subst h1
            rw [hk] at hkk
            simp at hkk
          · exact ⟨h2, hkk⟩

/-- A record whose delivery start date is present but unparseable makes the
whole filter construction raise ValueError. -/
theorem filterAds_error_of_bad {cfg : LoopCfg} : ∀ {l : List Record}
    {rec : Record} {s : String}, rec ∈ l →
    rec.ad_delivery_start_time = some s → dateTimestamp s = none →
    filterAds cfg l = .error .valueError := by
  intro l
  induction l with
  | nil =>
    intro rec s hm
    simp at hm
  | cons a as ih =>
    intro rec s hm hd ht
    rcases List.mem_cons.mp hm with h1 | h2
    · subst h1
      simp [filterAds, keepRecord, hd, ht]
    · cases hk : keepRecord cfg a with
      | error e =>
        have he := keepRecord_error_valueError hk
        subst he
        simp [filterAds, hk]
      | ok b =>
        cases b with
        | true => simp [filterAds, hk, ih h2 hd ht]
        | false => simpa [filterAds, hk] using ih h2 hd ht

/-- An API-level error on a URL different from the last errored one resets
the tracking: the cursor stays put and the counter restarts at one. -/
theorem runLoop_err_new {cfg : LoopCfg} {resp : Response} {rest : List Response}
    {url : String} {le : Option String} {c : Nat} {payload : String}
    (he : resp.error = some payload) (hne : le ≠ some url) :
    runLoop cfg (resp :: rest) ⟨some url, le, c⟩
      = runLoop cfg rest ⟨some url, some url, 1⟩ := by
  simp [runLoop, he, hne]

/-- An API-level error on the same URL with the counter at the limit raises
the permanent error. -/
theorem runLoop_err_raise {cfg : LoopCfg} {resp : Response} {rest : List Response}
    {url : String} {c : Nat} {payload : String}
    (he : resp.error = some payload) (hc : cfg.retryLimit ≤ c) :
    runLoop cfg (resp :: rest) ⟨some url, some url, c⟩
      = ⟨[], .raised (.permanentApi (permanentApiMessage payload url))⟩ := by
  simp [runLoop, he, hc]

/-- An API-level error on the same URL with the counter below the limit
increments the counter and retries the same URL. -/
theorem runLoop_err_retry {cfg : LoopCfg} {resp : Response} {rest : List Response}
    {url : String} {c : Nat} {payload : String}
    (he : resp.error = some payload) (hc : c < cfg.retryLimit) :
    runLoop cfg (resp :: rest) ⟨some url, some url, c⟩
      = runLoop cfg rest ⟨some url, some url, c + 1⟩ := by
  simp [runLoop, he, Nat.not_le.mpr hc]

/-- Spinning through consecutive error responses on the same URL only
increments the counter, as long as it stays at most the limit. -/
theorem runLoop_err_spin {cfg : LoopCfg} {url : String} :
    ∀ (errs : List Response) (j : Nat) (rest : List Response),
    (∀ e ∈ errs, (e.error).isSome) → j + errs.length ≤ cfg.retryLimit →
    runLoop cfg (errs ++ rest) ⟨some url, some url, j⟩
      = runLoop cfg rest ⟨some url, some url, j + errs.length⟩ := by
  intro errs
  induction errs with
  | nil =>
    intro j rest _ _
    simp
  | cons e es ih =>
    intro j rest hall hle
    obtain ⟨p, hp⟩ := Option.isSome_iff_exists.mp (hall e (List.mem_cons_self _ _))
    have hcnt : j < cfg.retryLimit := by
      simp at hle
      omega
    rw [List.cons_append, runLoop_err_retry hp hcnt,
      ih (j + 1) rest (fun x hx => hall x (List.mem_cons_of_mem _ hx))
        (by simp at hle ⊢; omega)]
    have harith : j + 1 + es.length = j + (e :: es).length := by
      simp
      omega
    rw [harith]

/-- A successfully decoded page with a non-empty filtered batch and no
paging object yields that batch and ends the sequence. -/
theorem runLoop_success_done {cfg : LoopCfg} {resp : Response}
    {rest : List Response} {url : String} {le : Option String} {c : Nat}
    {f : List Record}
    (he : resp.error = none) (hf : filterAds cfg resp.data = .ok f)
    (hne : f ≠ []) (hp : resp.paging = none) :
    runLoop cfg (resp :: rest) ⟨some url, le, c⟩ = ⟨[f], .done⟩ := by
  simp [runLoop, he, hf, hne, hp]

/-- Every record of every batch a run yields was accepted by keepRecord. -/
theorem runLoop_batches_keep {cfg : LoopCfg} : ∀ (responses : List Response)
    (st : TState) (b : List Record), b ∈ (runLoop cfg responses st).batches →
    ∀ r ∈ b, keepRecord cfg r = .ok true := by
  intro responses
  induction responses with
  | nil =>
    intro st b hb
    obtain ⟨cur, le, c⟩ := st
    cases cur <;> simp [runLoop] at hb
  | cons resp rest ih =>
    intro st b hb r hr
    obtain ⟨cur, le, c⟩ := st
    cases cur with
    | none => simp [runLoop] at hb
    | some url =>
      cases he : resp.error with
      | some payload =>
        by_cases hle : le = some url
        · subst hle
          by_cases hc : cfg.retryLimit ≤ c
          · rw [runLoop_err_raise he hc] at hb
            simp at hb
          · rw [runLoop_err_retry he (Nat.lt_of_not_le hc)] at hb
            exact ih _ _ hb r hr
        · rw [runLoop_err_new he hle] at hb
          exact ih _ _ hb r hr
      | none =>
        cases hfa : filterAds cfg resp.data with
        | error e2 => simp [runLoop, he, hfa] at hb
        | ok f =>
          by_cases hf0 : f = []
          · simp [runLoop, he, hfa, hf0] at hb
          · have hmemf : ∀ x ∈ f, keepRecord cfg x = .ok true :=
              fun x hx => ((filterAds_mem hfa x).mp hx).2
            cases hp : resp.paging with
            | none =>
              rw [runLoop_success_done he hfa hf0 hp] at hb
              simp at hb
              subst hb
              exact hmemf r hr
            | some pg =>
              cases hn : pg.next with
              | none =>
                simp [runLoop, he, hfa, hf0, hp, hn] at hb
                subst hb
                exact hmemf r hr
              | some onext =>
                cases onext with
                | none =>
                  simp [runLoop, he, hfa, hf0, hp, hn] at hb
                  subst hb
                  exact hmemf r hr
                | some u =>
                  simp [runLoop, he, hfa, hf0, hp, hn] at hb
                  rcases hb with hb | hb
                  · subst hb
                    exact hmemf r hr
                  · exact ih _ _ hb r hr

/-- A successful anchored match means the list starts with "/?id=" and a
digit. -/
theorem idMatchAt_shape {l : List Char} {r : String}
    (h : idMatchAt l = some r) : slashIdDigitsAt l = true := by
  unfold idMatchAt at h
  split at h
  · rename_i rest
    by_cases hd : (rest.takeWhile Char.isDigit).isEmpty
    · simp [hd] at h
    · cases rest with
      | nil => simp [List.takeWhile] at hd
      | cons c cs =>
        by_cases hc : c.isDigit
        · simp [slashIdDigitsAt, hc]
        · simp [List.takeWhile, hc] at hd
  · simp at h

/-- containsIdDigits holds of a list when it holds of the tail. -/
theorem containsIdDigits_of_tail {x : Char} {xs : List Char}
    (h : containsIdDigits xs = true) : containsIdDigits (x :: xs) = true := by
  simp [containsIdDigits, h]

/-- containsSlashIdDigits holds of a list when it holds of the tail. -/
theorem containsSlashIdDigits_of_tail {x : Char} {xs : List Char}
    (h : containsSlashIdDigits xs = true) :
    containsSlashIdDigits (x :: xs) = true := by
  simp [containsSlashIdDigits, h]

/-- A list starting with "/?id=" and a digit contains "?id=" followed by a
digit (one position in). -/
theorem slashIdDigitsAt_contains_qid {l : List Char}
    (h : slashIdDigitsAt l = true) : containsIdDigits l = true := by
  unfold slashIdDigitsAt at h
  split at h
  · rename_i c cs
    apply containsIdDigits_of_tail
    simp [containsIdDigits, idDigitsAt, h]
  · simp at h

/-- A list starting with "/?id=" and a digit contains "/?id=" followed by a
digit. -/
theorem slashIdDigitsAt_contains_slash {l : List Char}
    (h : slashIdDigitsAt l = true) : containsSlashIdDigits l = true := by
  cases l with
  | nil => simp [slashIdDigitsAt] at h
  | cons c cs => simp [containsSlashIdDigits, h]

/-- A successful regex search implies the subject contains "/?id=" followed
by a digit. -/
theorem searchIdPattern_contains_slash : ∀ {l : List Char} {r : String},
    searchIdPattern l = some r → containsSlashIdDigits l = true := by
  intro l
  induction l with
  | nil =>
    intro r h
    simp [searchIdPattern] at h
  | cons c cs ih =>
    intro r h
    cases hm : idMatchAt (c :: cs) with
    | some r2 => exact slashIdDigitsAt_contains_slash (idMatchAt_shape hm)
    | none =>
      simp [searchIdPattern, hm] at h
      exact containsSlashIdDigits_of_tail (ih h)

/-- A successful regex search implies the subject contains "?id=" followed
by a digit. -/
theorem searchIdPattern_contains_qid : ∀ {l : List Char} {r : String},
    searchIdPattern l = some r → containsIdDigits l = true := by
  intro l
  induction l with
  | nil =>
    intro r h
    simp [searchIdPattern] at h
  | cons c cs ih =>
    intro r h
    cases hm : idMatchAt (c :: cs) with
    | some r2 => exact slashIdDigitsAt_contains_qid (idMatchAt_shape hm)
    | none =>
      simp [searchIdPattern, hm] at h
      exact containsIdDigits_of_tail (ih h)

/-- C2: a page whose filtered result is empty ends the traversal normally at
that point: no batch is produced for it, no further batches follow, and the
result does not depend on the rest of the response stream, so no further
fetch is performed after that page. -/
theorem C2_empty_filter_terminates (cfg : LoopCfg) (resp : Response)
    (rest : List Response) (url : String) (le : Option String) (c : Nat)
    (he : resp.error = none) (hf : filterAds cfg resp.data = .ok []) :
    runLoop cfg (resp :: rest) ⟨some url, le, c⟩ = ⟨[], .done⟩ ∧
    runLoop cfg (resp :: rest) ⟨some url, le, c⟩
      = runLoop cfg [resp] ⟨some url, le, c⟩ := by
  constructor <;> simp [runLoop, he, hf]

/-- C2 witness: a page dated before the window filters to empty and ends the
run, even though a later in-window page sits unread in the stream. -/
theorem C2_empty_filter_terminates_witness :
    runLoop ⟨1640995200, none, 3⟩
      [⟨none, [⟨some "2020-01-01", none⟩], none⟩,
       ⟨none, [⟨some "2022-05-01", none⟩], none⟩]
      ⟨some "u", none, 0⟩ = ⟨[], .done⟩ :=
  (C2_empty_filter_terminates ⟨1640995200, none, 3⟩
    ⟨none, [⟨some "2020-01-01", none⟩], none⟩
    [⟨none, [⟨some "2022-05-01", none⟩], none⟩] "u" none 0 rfl (by decide)).1

/-- C4: a record lacking the delivery-start-date field is excluded by the
window filter and never appears in any batch yielded by any run. -/
theorem C4_missing_date_never_in_batch :
    (∀ (cfg : LoopCfg) (data f : List Record) (rec : Record),
      filterAds cfg data = .ok f → rec ∈ data →
      rec.ad_delivery_start_time = none → rec ∉ f) ∧
    (∀ (cfg : LoopCfg) (responses : List Response) (st : TState)
      (b : List Record) (rec : Record),
      b ∈ (runLoop cfg responses st).batches → rec ∈ b →
      rec.ad_delivery_start_time ≠ none) := by
  constructor
  · intro cfg data f rec hfa hmem hd hin
    exact keepRecord_true_date ((filterAds_mem hfa rec).mp hin).2 hd
  · intro cfg responses st b rec hb hr
    exact keepRecord_true_date (runLoop_batches_keep responses st b hb rec hr)

/-- C4 witness: the record that survives into the only batch of a concrete
run carries a delivery start date, by the theorem applied to that run. -/
theorem C4_missing_date_never_in_batch_witness :
    (⟨some "2022-05-01", none⟩ : Record).ad_delivery_start_time ≠ none :=
  C4_missing_date_never_in_batch.2 ⟨1640995200, none, 3⟩
    [⟨none, [⟨some "2022-05-01", none⟩, ⟨none, some "x"⟩], none⟩]
    ⟨some "u", none, 0⟩ [⟨some "2022-05-01", none⟩] ⟨some "2022-05-01", none⟩
    (by decide) (by decide)

/-- C5 counterexample: a page whose paging object lacks a next entry, hence a
page lacking a pagination-next URL, does not end the sequence cleanly: the
batch is yielded and then KeyError is raised. -/
theorem C5_counterexample :
    runLoop ⟨1640995200, none, 3⟩
      [⟨none, [⟨some "2022-05-01", none⟩], some ⟨none⟩⟩]
      ⟨some "u", none, 0⟩
      = ⟨[[⟨some "2022-05-01", none⟩]], .raised (.keyError "next")⟩ := by
  decide

/-- C5 (amended): after yielding a non-empty filtered batch the engine reads
the paging data: with no paging object the sequence ends cleanly; with a
paging object whose next value is null it also ends cleanly; with a next URL
it advances the cursor there, keeping the retry state; but with a paging
object lacking a next entry it raises KeyError after the yield instead of
ending cleanly. -/
theorem C5_cursor_advance (cfg : LoopCfg) (resp : Response)
    (rest : List Response) (url : String) (le : Option String) (c : Nat)
    (f : List Record)
    (he : resp.error = none) (hf : filterAds cfg resp.data = .ok f)
    (hne : f ≠ []) :
    runLoop cfg (resp :: rest) ⟨some url, le, c⟩ =
      match resp.paging with
      | none => ⟨[f], .done⟩
      | some ⟨none⟩ => ⟨[f], .raised (.keyError "next")⟩
      | some ⟨some none⟩ => ⟨[f], .done⟩
      | some ⟨some (some nextUrl)⟩ =>
        ⟨f :: (runLoop cfg rest ⟨some nextUrl, le, c⟩).batches,
          (runLoop cfg rest ⟨some nextUrl, le, c⟩).outcome⟩ := by
  cases hp : resp.paging with
  | none => simp [runLoop, he, hf, hne, hp]
  | some pg =>
    obtain ⟨nx⟩ := pg
    cases nx with
    | none => simp [runLoop, he, hf, hne, hp]
    | some onext =>
      cases onext with
      | none => simp [runLoop, he, hf, hne, hp]
      | some u => simp [runLoop, he, hf, hne, hp]

/-- C5 witness: a page with a next cursor URL advances there and the run
continues with the second page, yielding both batches. -/
theorem C5_cursor_advance_witness :
    runLoop ⟨1640995200, none, 3⟩
      [⟨none, [⟨some "2022-05-01", none⟩], some ⟨some (some "u2")⟩⟩,
       ⟨none, [⟨some "2022-06-01", none⟩], none⟩]
      ⟨some "u", none, 0⟩
      = ⟨[[⟨some "2022-05-01", none⟩], [⟨some "2022-06-01", none⟩]], .done⟩ := by
  rw [C5_cursor_advance ⟨1640995200, none, 3⟩
    ⟨none, [⟨some "2022-05-01", none⟩], some ⟨some (some "u2")⟩⟩
    [⟨none, [⟨some "2022-06-01", none⟩], none⟩] "u" none 0
    [⟨some "2022-05-01", none⟩] rfl (by decide) (by decide)]
  decide

/-- C6: an API-level error on cursor URL b when the last errored URL was a
different URL a resets the tracking to b with the counter restarting at one,
regardless of how many errors a had accumulated, and leaves the cursor at b,
so b itself is fetched again on the next iteration. -/
theorem C6_different_url_resets (cfg : LoopCfg) (resp : Response)
    (rest : List Response) (a b payload : String) (cnt : Nat)
    (he : resp.error = some payload) (hne : a ≠ b) :
    runLoop cfg (resp :: rest) ⟨some b, some a, cnt⟩
      = runLoop cfg rest ⟨some b, some b, 1⟩ :=
  runLoop_err_new he (by simpa using hne)

/-- C6 witness: with two accumulated errors on URL A, an error on URL B
restarts the counter at one on B without advancing the cursor. -/
theorem C6_different_url_resets_witness :
    runLoop ⟨1640995200, none, 3⟩ [⟨some "p", [], none⟩] ⟨some "B", some "A", 2⟩
      = runLoop ⟨1640995200, none, 3⟩ [] ⟨some "B", some "B", 1⟩ :=
  C6_different_url_resets ⟨1640995200, none, 3⟩ ⟨some "p", [], none⟩ [] "A" "B"
    "p" 2 rfl (by decide)

/-- C7: the restart entry point takes only a cursor URL and a minimum date
and produces the same run as the in-progress loop started at that cursor
with that minimum date, no upper cutoff, and the default retry limit 3;
equivalently it equals the full entry point with retry limit 3 and an empty
maximum date. -/
theorem C7_restart_equivalent (responses : List Response)
    (url minDate : String) (after : Int)
    (h : dateTimestamp minDate = some after) :
    generateAdArchivesFromUrl responses url minDate
      = runLoop ⟨after, none, 3⟩ responses ⟨some url, none, 0⟩ ∧
    generateAdArchivesFromUrl responses url minDate
      = getAdArchivesFromUrl responses url minDate 3 "" := by
  refine ⟨?_, rfl⟩
  simp [generateAdArchivesFromUrl, getAdArchivesFromUrl, h]

/-- C7 witness: restart at the default minimum date equals the loop from the
fresh state with the parsed cutoff and retry limit 3. -/
theorem C7_restart_equivalent_witness :
    generateAdArchivesFromUrl [] "u" "2022-01-01"
      = runLoop ⟨1640995200, none, 3⟩ [] ⟨some "u", none, 0⟩ :=
  (C7_restart_equivalent [] "u" "2022-01-01" 1640995200 (by decide)).1

/-- C10: a page containing a record whose delivery start date is present but
not a parseable calendar date makes the filter step raise ValueError, which
terminates the traversal: no batch is yielded for that page and the record is
not silently excluded. -/
theorem C10_unparseable_date_raises (cfg : LoopCfg) (resp : Response)
    (rest : List Response) (url : String) (le : Option String) (c : Nat)
    (rec : Record) (s : String)
    (he : resp.error = none) (hmem : rec ∈ resp.data)
    (hd : rec.ad_delivery_start_time = some s) (ht : dateTimestamp s = none) :
    runLoop cfg (resp :: rest) ⟨some url, le, c⟩
      = ⟨[], .raised .valueError⟩ := by
  have hfa : filterAds cfg resp.data = .error .valueError :=
    filterAds_error_of_bad hmem hd ht
  simp [runLoop, he, hfa]

/-- C10 witness: a month-13 date string in the second record makes the run
raise ValueError with no batch, although the first record is in the window. -/
theorem C10_unparseable_date_raises_witness :
    runLoop ⟨1640995200, none, 3⟩
      [⟨none, [⟨some "2022-05-01", none⟩, ⟨some "2022-13-01", none⟩], none⟩]
      ⟨some "u", none, 0⟩ = ⟨[], .raised .valueError⟩ :=
  C10_unparseable_date_raises ⟨1640995200, none, 3⟩
    ⟨none, [⟨some "2022-05-01", none⟩, ⟨some "2022-13-01", none⟩], none⟩ []
    "u" none 0 ⟨some "2022-13-01", none⟩ "2022-13-01" rfl (by decide) rfl
    (by decide)

/-- C1 counterexample: with retryLimit = 1 the cursor URL errors on exactly
one (= retryLimit) consecutive iteration and then succeeds; the claim
demands a permanent error, but the run raises nothing and yields the
filtered batch of the success page. -/
theorem C1_counterexample :
    runLoop ⟨1640995200, none, 1⟩
      [⟨some "p", [], none⟩, ⟨none, [⟨some "2022-05-01", none⟩], none⟩]
      ⟨some "u", none, 0⟩
      = ⟨[[⟨some "2022-05-01", none⟩]], .done⟩ := by
  decide

/-- C1 (amended): for a positive retry limit, the permanent error carrying
the serialized payload and the offending URL is raised on the
(retryLimit + 1)-st consecutive API-level error on the same URL, because the
counter is compared against the limit before being incremented; the same URL
erroring at most retryLimit consecutive times and then succeeding yields the
filtered batch of the success page with no error raised. -/
theorem C1_retry_amended (cfg : LoopCfg) (url : String)
    (hpos : 1 ≤ cfg.retryLimit) :
    (∀ (errs : List Response) (last : Response) (payload : String)
      (rest : List Response),
      (∀ e ∈ errs, (e.error).isSome) → errs.length = cfg.retryLimit →
      last.error = some payload →
      runLoop cfg (errs ++ last :: rest) ⟨some url, none, 0⟩
        = ⟨[], .raised (.permanentApi (permanentApiMessage payload url))⟩) ∧
    (∀ (errs : List Response) (page : Response) (f : List Record)
      (rest : List Response),
      (∀ e ∈ errs, (e.error).isSome) → errs.length ≤ cfg.retryLimit →
      page.error = none → filterAds cfg page.data = .ok f → f ≠ [] →
      page.paging = none →
      runLoop cfg (errs ++ page :: rest) ⟨some url, none, 0⟩
        = ⟨[f], .done⟩) := by
  constructor
  · intro errs last payload rest hall hlen hle
    cases errs with
    | nil =>
      simp at hlen
      omega
    | cons e0 es =>
      obtain ⟨p0, hp0⟩ :=
        Option.isSome_iff_exists.mp (hall e0 (List.mem_cons_self _ _))
      have hlen2 : es.length + 1 = cfg.retryLimit := by simpa using hlen
      rw [List.cons_append, runLoop_err_new hp0 (by simp),
        runLoop_err_spin es 1 (last :: rest)
          (fun x hx => hall x (List.mem_cons_of_mem _ hx)) (by omega),
        runLoop_err_raise hle (by omega)]
  · intro errs page f rest hall hlen hpe hfa hne hpg
    cases errs with
    | nil =>
      simp only [List.nil_append]
      exact runLoop_success_done hpe hfa hne hpg
    | cons e0 es =>
      obtain ⟨p0, hp0⟩ :=
        Option.isSome_iff_exists.mp (hall e0 (List.mem_cons_self _ _))
      have hlen2 : es.length + 1 ≤ cfg.retryLimit := by simpa using hlen
      rw [List.cons_append, runLoop_err_new hp0 (by simp),
        runLoop_err_spin es 1 (page :: rest)
          (fun x hx => hall x (List.mem_cons_of_mem _ hx)) (by omega),
        runLoop_success_done hpe hfa hne hpg]

/-- C1 witness: with retry limit 2, three consecutive errors on the same URL
raise the permanent error with the last payload and the URL in the message,
while two errors followed by a success yield the batch with no error. -/
theorem C1_retry_amended_witness :
    runLoop ⟨1640995200, none, 2⟩
      [⟨some "p", [], none⟩, ⟨some "p", [], none⟩, ⟨some "q", [], none⟩]
      ⟨some "u", none, 0⟩
      = ⟨[], .raised (.permanentApi (permanentApiMessage "q" "u"))⟩ ∧
    runLoop ⟨1640995200, none, 2⟩
      [⟨some "p", [], none⟩, ⟨some "p", [], none⟩,
       ⟨none, [⟨some "2022-05-01", none⟩], none⟩]
      ⟨some "u", none, 0⟩
      = ⟨[[⟨some "2022-05-01", none⟩]], .done⟩ :=
  ⟨(C1_retry_amended ⟨1640995200, none, 2⟩ "u" (by decide)).1
      [⟨some "p", [], none⟩, ⟨some "p", [], none⟩] ⟨some "q", [], none⟩ "q" []
      (by decide) (by decide) rfl,
   (C1_retry_amended ⟨1640995200, none, 2⟩ "u" (by decide)).2
      [⟨some "p", [], none⟩, ⟨some "p", [], none⟩]
      ⟨none, [⟨some "2022-05-01", none⟩], none⟩
      [⟨some "2022-05-01", none⟩] []
      (by decide) (by decide) rfl (by decide) (by decide) rfl⟩

/-- C3 counterexample: the maximum date 1970-01-01 is present as a non-empty
parseable string whose midnight timestamp in the reference zone is 0; the
record dated 1975-06-01 has timestamp 170812800, above the upper bound, so
the claim demands exclusion, yet the run yields the record: the code tests
the Python truthiness of the float cutoff and 0.0 selects the lower-bound
only filter. -/
theorem C3_counterexample :
    getAdArchivesFromUrl [⟨none, [⟨some "1975-06-01", none⟩], none⟩]
      "u" "1960-01-01" 3 "1970-01-01"
      = ⟨[[⟨some "1975-06-01", none⟩]], .done⟩ ∧
    dateTimestamp "1970-01-01" = some 0 ∧
    dateTimestamp "1975-06-01" = some 170812800 ∧
    dateTimestamp "1960-01-01" = some (-315619200) := by
  exact ⟨by decide, by decide, by decide, by decide⟩

/-- C3 (amended): a record with a parseable delivery start date is kept by
the window filter exactly when its timestamp passes inWindowAmended: both
bounds inclusive when an upper cutoff is present and nonzero, the lower
bound alone when the upper cutoff is absent or equal to zero (the source
tests the Python truthiness of the float cutoff). With the window 2022-01-01
to 2022-01-31, a record dated 2022-01-31 is kept and one dated 2022-02-01 is
dropped. -/
theorem C3_window_amended :
    (∀ (cfg : LoopCfg) (data f : List Record) (rec : Record) (s : String)
      (t : Int),
      filterAds cfg data = .ok f → rec ∈ data →
      rec.ad_delivery_start_time = some s → dateTimestamp s = some t →
      (rec ∈ f ↔ inWindowAmended cfg t = true)) ∧
    getAdArchivesFromUrl
      [⟨none, [⟨some "2022-01-31", none⟩, ⟨some "2022-02-01", none⟩], none⟩]
      "u" "2022-01-01" 3 "2022-01-31"
      = ⟨[[⟨some "2022-01-31", none⟩]], .done⟩ := by
  constructor
  · intro cfg data f rec s t hfa hmem hd ht
    rw [filterAds_mem hfa rec]
    cases hb : cfg.startTimeCutoffBefore with
    | none => simp [keepRecord, hd, ht, hb, inWindowAmended, hmem]
    | some b0 =>
      by_cases h0 : b0 = 0 <;>
        simp [keepRecord, hd, ht, hb, h0, inWindowAmended, hmem]
  · decide

/-- C3 witness: in the 2022-01-01 to 2022-01-31 window, membership of the
record dated 2022-01-31 in the filtered output coincides with the amended
window test at its timestamp. -/
theorem C3_window_amended_witness :
    ((⟨some "2022-01-31", none⟩ : Record)
        ∈ [(⟨some "2022-01-31", none⟩ : Record)])
      ↔ inWindowAmended ⟨1640995200, some 1643587200, 3⟩ 1643587200 = true :=
  C3_window_amended.1 ⟨1640995200, some 1643587200, 3⟩
    [⟨some "2022-01-31", none⟩, ⟨some "2022-02-01", none⟩]
    [⟨some "2022-01-31", none⟩] ⟨some "2022-01-31", none⟩ "2022-01-31"
    1643587200 (by decide) (by decide) rfl (by decide)

/-- C8: the ID extraction helper applied to the ad_snapshot_url value
"https://example.com/ads/library/?id=123456789" returns "123456789"; applied
to any ad_snapshot_url lacking "?id=" followed by a digit it finds no match,
on which the source raises (the ExtractionError of the spec). -/
theorem C8_id_extraction :
    get_ad_archive_id "https://example.com/ads/library/?id=123456789"
      = some "123456789" ∧
    ∀ s : String, containsIdDigits s.data = false →
      get_ad_archive_id s = none := by
  constructor
  · decide
  · intro s h
    cases hg : get_ad_archive_id s with
    | none => rfl
    | some r =>
      have hg2 : searchIdPattern s.data = some r := hg
      rw [searchIdPattern_contains_qid hg2] at h
      simp at h

/-- C8 witness: the example URL extracts its numeric ID, and a URL with no
"?id=" at all yields no match. -/
theorem C8_id_extraction_witness :
    get_ad_archive_id "https://example.com/ads/library/?id=123456789"
      = some "123456789" ∧
    get_ad_archive_id "https://example.com/ads/library/" = none :=
  ⟨C8_id_extraction.1,
   C8_id_extraction.2 "https://example.com/ads/library/" (by decide)⟩

/-- C9: the helper matches only when "?id=" is immediately preceded by "/":
any successful extraction implies the URL contains "/?id=" followed by a
digit, and on "https://example.com/ads?id=123", where "?id=" and digits
occur without a slash directly before the "?", the helper finds no match and
the source raises instead of returning the digits. -/
theorem C9_slash_required :
    (∀ (s r : String), get_ad_archive_id s = some r →
      containsSlashIdDigits s.data = true) ∧
    get_ad_archive_id "https://example.com/ads?id=123" = none := by
  constructor
  · intro s r h
    have h2 : searchIdPattern s.data = some r := h
    exact searchIdPattern_contains_slash h2
  · decide

/-- C9 witness: a URL on which extraction succeeds contains "/?id=" followed
by a digit, by the theorem at a concrete URL. -/
theorem C9_slash_required_witness :
    containsSlashIdDigits ("https://x.co/?id=77" : String).data = true :=
  C9_slash_required.1 "https://x.co/?id=77" "77" (by decide)

end FbAdsLibrary
